import Mathlib

/-!
Shallow embedding of `src/libgreen/task.rs` (the Green Task implementation of
an M:N threading runtime).

Modelling conventions:
* The external collaborators (`Scheduler`, `SchedHandle`, `Coroutine`, the
  generic `Task` of libstd) are modelled by the data this module reads from
  them: a scheduler has an identity and a pool id, a handle records the
  identity of the scheduler that made it, a generic task is a record holding
  an optional runtime trait object, a name and an exit-hook flag.
* Calls into the scheduler and into TLS (`enqueue_task`, `run_task`,
  `yield_now`, remote `send(RunOnce(..))`, `Local::put`, ...) are recorded as
  `Event`s in the order the code performs them.
* `rtabort!` and failed `assert!` are modelled as `Except.error` with a
  message; ordinary returns are `Except.ok`.
* The callback passed to `deschedule` receives blocked-task handles; we index
  the derived handles `0, 1, ...` in the order `make_selectable` yields them.
  The callback answers `accepted` for `Ok(())` and `rejected w` for `Err(t)`,
  where `w` is the result of `t.wake()` (`some task` if the wake is still
  valid, `none` if another waker already claimed it).
* The `nasty_deschedule_lock` mutex is pure synchronization with no data
  content; it is not part of the state model.
-/

namespace GreenRT

/-- A scheduler handle records the identity of the scheduler that made it
(field `sched_id` of `SchedHandle` in `sched.rs`). -/
structure SchedHandle where
  sched_id : Nat

/-- External coroutine: a stack of some size with an entry closure; only its
presence matters to this module. -/
structure Coroutine where
  stack_size : Option Nat

/-- External scheduler: the data this module reads from it. -/
structure Scheduler where
  sched_id : Nat
  pool_id : Nat

/-- `sched.make_handle()`: a handle carrying this scheduler's identity. -/
def Scheduler.make_handle (s : Scheduler) : SchedHandle :=
  ⟨s.sched_id⟩

/-- `enum Home { AnySched, HomeSched(SchedHandle) }`. -/
inductive Home where
  | AnySched : Home
  | HomeSched : SchedHandle → Home

/-- `enum TaskType { TypeGreen(Option<Home>), TypeSched }`. -/
inductive TaskType where
  | TypeGreen : Option Home → TaskType
  | TypeSched : TaskType

mutual

/-- The runtime trait object installed in a generic task's runtime slot:
either a `GreenTask` or some other runtime implementation. -/
inductive RuntimeObj : Type where
  | greenRT : GreenTask → RuntimeObj
  | otherRT : RuntimeObj

/-- The generic libstd `Task`: runtime slot, `name`, and whether a
`death.on_exit` hook is installed. -/
inductive TaskS : Type where
  | mk : Option RuntimeObj → Option String → Bool → TaskS

/-- `struct GreenTask`: fields `coroutine`, `handle`, `sched`, `task`,
`task_type`, `pool_id` (in that order). -/
inductive GreenTask : Type where
  | mk : Option Coroutine → Option SchedHandle → Option Scheduler →
      Option TaskS → TaskType → Nat → GreenTask

end

/-- `Task::new()`: empty runtime slot, no name, no exit hook. -/
def TaskS.new : TaskS := .mk none none false

def TaskS.runtime : TaskS → Option RuntimeObj
  | .mk r _ _ => r

def TaskS.name : TaskS → Option String
  | .mk _ n _ => n

def TaskS.on_exit : TaskS → Bool
  | .mk _ _ e => e

/-- `task.put_runtime(ops)`: install a runtime trait object in the slot. -/
def TaskS.put_runtime : TaskS → RuntimeObj → TaskS
  | .mk _ n e, r => .mk (some r) n e

/-- `task.maybe_take_runtime::<GreenTask>()`: take the runtime out; if it is
a Green Task return it (slot left empty), otherwise put it back. -/
def TaskS.maybe_take_runtime : TaskS → Option GreenTask × TaskS
  | .mk (some (.greenRT g)) n e => (some g, .mk none n e)
  | t => (none, t)

def GreenTask.coroutine : GreenTask → Option Coroutine
  | .mk c _ _ _ _ _ => c

def GreenTask.handle : GreenTask → Option SchedHandle
  | .mk _ h _ _ _ _ => h

def GreenTask.sched : GreenTask → Option Scheduler
  | .mk _ _ s _ _ _ => s

def GreenTask.task : GreenTask → Option TaskS
  | .mk _ _ _ t _ _ => t

def GreenTask.task_type : GreenTask → TaskType
  | .mk _ _ _ _ tt _ => tt

def GreenTask.pool_id : GreenTask → Nat
  | .mk _ _ _ _ _ p => p

def GreenTask.with_coroutine : GreenTask → Option Coroutine → GreenTask
  | .mk _ h s t tt p, c => .mk c h s t tt p

def GreenTask.with_handle : GreenTask → Option SchedHandle → GreenTask
  | .mk c _ s t tt p, h => .mk c h s t tt p

def GreenTask.with_sched : GreenTask → Option Scheduler → GreenTask
  | .mk c h _ t tt p, s => .mk c h s t tt p

def GreenTask.with_task : GreenTask → Option TaskS → GreenTask
  | .mk c h s _ tt p, t => .mk c h s t tt p

def GreenTask.with_task_type : GreenTask → TaskType → GreenTask
  | .mk c h s t _ p, tt => .mk c h s t tt p

def GreenTask.with_pool_id : GreenTask → Nat → GreenTask
  | .mk c h s t tt _, p => .mk c h s t tt p

/-- Observable calls this module makes into the scheduler, the remote handle
and TLS, in program order. -/
inductive Event where
  | enqueue : GreenTask → Event
  | runTask : GreenTask → GreenTask → Event
  | remoteSend : SchedHandle → GreenTask → Event
  | localPut : TaskS → Event
  | schedYield : GreenTask → Event
  | schedMaybeYield : GreenTask → Event
  | terminated : GreenTask → Event
  | reacquired : Event
  | cleanup : Event
  | installAndRun : TaskS → Event

-- Construction ---------------------------------------------------------

/-- `Coroutine::new(stack_pool, stack_size, start)`: only the stack size is
data visible to this module. -/
def Coroutine.new (stack_size : Option Nat) : Coroutine :=
  ⟨stack_size⟩

/-- `GreenTask::new_typed(coroutine, task_type)`. -/
def GreenTask.new_typed (coroutine : Option Coroutine) (task_type : TaskType) :
    GreenTask :=
  .mk coroutine none none (some TaskS.new) task_type 0

/-- `GreenTask::new_homed(stack_pool, stack_size, home, start)`: build via
`new_typed`, then install the coroutine whose entry is the start wrapper. -/
def GreenTask.new_homed (stack_size : Option Nat) (home : Home) : GreenTask :=
  let ops := GreenTask.new_typed none (.TypeGreen (some home))
  ops.with_coroutine (some (Coroutine.new stack_size))

/-- `GreenTask::new(stack_pool, stack_size, start)`. -/
def GreenTask.new (stack_size : Option Nat) : GreenTask :=
  GreenTask.new_homed stack_size .AnySched

/-- `TaskOpts`: the fields `configure` consumes (`watched` is discarded). -/
structure TaskOpts where
  notify : Bool
  name : Option String
  stack_size : Option Nat

/-- `GreenTask::configure(pool, opts, f)`: build via `new`, then set the
contained task's name and, if a notify channel was requested, install the
exit hook. `get_mut_ref` on an empty task slot would abort. -/
def GreenTask.configure (opts : TaskOpts) : Except String GreenTask :=
  let green := GreenTask.new opts.stack_size
  match green.task with
  | none => .error "get_mut_ref: task slot is empty"
  | some t =>
      .ok (green.with_task (some (TaskS.mk t.runtime opts.name
        (if opts.notify then true else t.on_exit))))

-- Runtime glue functions and helpers ------------------------------------

/-- Failure message of the `assert!(self.task.is_none())` in `put_task`. -/
def put_task_abort : String := "put_task: task slot is not empty"

/-- `put_task(task)`: `assert!(self.task.is_none()); self.task = Some(task)`. -/
def GreenTask.put_task (g : GreenTask) (task : TaskS) : Except String GreenTask :=
  match g.task with
  | some _ => .error put_task_abort
  | none => .ok (g.with_task (some task))

/-- `swap()`: take the owned task out and install `self` as its runtime. -/
def GreenTask.swap (g : GreenTask) : Except String TaskS :=
  match g.task with
  | none => .error "swap: take_unwrap on empty task"
  | some t => .ok (t.put_runtime (.greenRT (g.with_task none)))

/-- `put()`: `assert!(self.sched.is_some()); Local::put(self.swap())`. -/
def GreenTask.put (g : GreenTask) : Except String Event :=
  match g.sched with
  | none => .error "put: sched slot is empty"
  | some _ => do
      let t ← g.swap
      .ok (.localPut t)

/-- `put_with_sched(sched)`: `assert!(self.sched.is_none())`, install the
scheduler, then `put()`. -/
def GreenTask.put_with_sched (g : GreenTask) (sched : Scheduler) :
    Except String Event :=
  match g.sched with
  | some _ => .error "put_with_sched: sched slot is not empty"
  | none => (g.with_sched (some sched)).put

/-- `GreenTask::convert(task)`: take the runtime out of the generic task; if
it is a Green Task, re-attach the generic task via `put_task` and return the
wrapper; otherwise `rtabort!`. -/
def GreenTask.convert (task : TaskS) : Except String GreenTask :=
  match task.maybe_take_runtime with
  | (some green, task') => green.put_task task'
  | (none, _) => .error "not a green task any more?"

/-- `terminate()`: take the scheduler out and ask it to retire this task. -/
def GreenTask.terminate (g : GreenTask) : Except String Event :=
  match g.sched with
  | none => .error "terminate: take_unwrap on empty sched"
  | some _ => .ok (.terminated (g.with_sched none))

/-- `reawaken_remotely()`: send `RunOnce(self)` through the stored handle
(under the deschedule lock); `get_mut_ref` on a missing handle aborts. -/
def GreenTask.reawaken_remotely (g : GreenTask) : Except String Event :=
  match g.handle with
  | none => .error "reawaken_remotely: handle slot is empty"
  | some h => .ok (.remoteSend h g)

-- Homes ------------------------------------------------------------------

/-- `give_home(new_home)`: only valid on a green task. -/
def GreenTask.give_home (g : GreenTask) (new_home : Home) :
    Except String GreenTask :=
  match g.task_type with
  | .TypeGreen _ => .ok (g.with_task_type (.TypeGreen (some new_home)))
  | .TypeSched => .error "type error: used SchedTask as GreenTask"

/-- `take_unwrap_home()`: remove and return the home; only valid on a green
task with a home set. -/
def GreenTask.take_unwrap_home (g : GreenTask) :
    Except String (Home × GreenTask) :=
  match g.task_type with
  | .TypeGreen (some h) => .ok (h, g.with_task_type (.TypeGreen none))
  | .TypeGreen none => .error "take_unwrap on empty home"
  | .TypeSched => .error "type error: used SchedTask as GreenTask"

/-- `is_home_no_tls(sched)`: compares the bound handle's scheduler identity
with the given scheduler's identity; `AnySched` is never home; aborts on a
missing home or a bookkeeping task. -/
def GreenTask.is_home_no_tls (g : GreenTask) (sched : Scheduler) :
    Except String Bool :=
  match g.task_type with
  | .TypeGreen (some .AnySched) => .ok false
  | .TypeGreen (some (.HomeSched h)) => .ok (h.sched_id == sched.sched_id)
  | .TypeGreen none => .error "task without home"
  | .TypeSched => .error "type error: expected: TypeGreen, found: TaskSched"

/-- `homed()`. -/
def GreenTask.homed (g : GreenTask) : Except String Bool :=
  match g.task_type with
  | .TypeGreen (some .AnySched) => .ok false
  | .TypeGreen (some (.HomeSched _)) => .ok true
  | .TypeGreen none => .error "task without home"
  | .TypeSched => .error "type error: expected: TypeGreen, found: TaskSched"

/-- `is_sched()`. -/
def GreenTask.is_sched (g : GreenTask) : Bool :=
  match g.task_type with
  | .TypeGreen _ => false
  | .TypeSched => true

-- Runtime operations -----------------------------------------------------

/-- Answer of the deschedule callback on one blocked-task handle:
`accepted` for `Ok(())`, `rejected w` for `Err(t)` with `w = t.wake()`. -/
inductive CbResult where
  | accepted : CbResult
  | rejected : Option TaskS → CbResult

/-- Body of `yield_now` after the current task has been stored:
`let sched = self.sched.take_unwrap(); sched.yield_now(self)`. -/
def GreenTask.yield_now_go (g : GreenTask) : Except String Event :=
  match g.sched with
  | none => .error "yield_now: take_unwrap on empty sched"
  | some _ => .ok (.schedYield (g.with_sched none))

/-- `yield_now(cur_task)`. -/
def GreenTask.yield_now (g : GreenTask) (cur_task : TaskS) :
    Except String Event := do
  let g ← g.put_task cur_task
  g.yield_now_go

/-- Body of `maybe_yield` after the current task has been stored. -/
def GreenTask.maybe_yield_go (g : GreenTask) : Except String Event :=
  match g.sched with
  | none => .error "maybe_yield: take_unwrap on empty sched"
  | some _ => .ok (.schedMaybeYield (g.with_sched none))

/-- `maybe_yield(cur_task)`. -/
def GreenTask.maybe_yield (g : GreenTask) (cur_task : TaskS) :
    Except String Event := do
  let g ← g.put_task cur_task
  g.maybe_yield_go

/-- Lazy creation of the remote-wakeup handle: `if self.handle.is_none() {
self.handle = Some(sched.make_handle()); self.pool_id = sched.pool_id; }`. -/
def lazyHandleInit (g : GreenTask) (sched : Scheduler) : GreenTask :=
  if g.handle.isNone then
    (g.with_handle (some sched.make_handle)).with_pool_id sched.pool_id
  else g

/-- The `count > 1` closure body: iterate over the `n` derived selectable
handles starting at index `i`; `Ok(())` continues, `Err(task)` wakes (if the
wake is still valid, re-enqueue `convert`ed task) and breaks. Returns the
offered indices in order together with the emitted scheduler events. -/
def selectLoop (f : Nat → CbResult) : Nat → Nat →
    Except String (List Nat × List Event)
  | _, 0 => .ok ([], [])
  | i, n + 1 =>
    match f i with
    | .accepted => do
        let (off, evs) ← selectLoop f (i + 1) n
        .ok (i :: off, evs)
    | .rejected none => .ok ([i], [])
    | .rejected (some t) => do
        let gw ← GreenTask.convert t
        .ok ([i], [.enqueue gw])

/-- Body of `deschedule` after the current task has been stored: take the
scheduler, lazily create the handle, then run the deschedule closure (the
single-handle case for `times == 1`, the selectable loop otherwise).
Returns the descheduled wrapper's state, the offered handle indices and the
emitted events. -/
def GreenTask.deschedule_go (g : GreenTask) (times : Nat) (f : Nat → CbResult) :
    Except String (GreenTask × List Nat × List Event) :=
  match g.sched with
  | none => .error "deschedule: take_unwrap on empty sched"
  | some sched =>
    let g := lazyHandleInit (g.with_sched none) sched
    if times == 1 then
      match f 0 with
      | .accepted => .ok (g, [0], [])
      | .rejected none => .ok (g, [0], [])
      | .rejected (some t) => do
          let gw ← GreenTask.convert t
          .ok (g, [0], [.enqueue gw])
    else do
      let (off, evs) ← selectLoop f 0 times
      .ok (g, off, evs)

/-- `deschedule(times, cur_task, f)`. -/
def GreenTask.deschedule (g : GreenTask) (times : Nat) (cur_task : TaskS)
    (f : Nat → CbResult) : Except String (GreenTask × List Nat × List Event) := do
  let g ← g.put_task cur_task
  g.deschedule_go times f

/-- Body of `reawaken` after `to_wake` has been stored: assert the woken
wrapper holds no scheduler, then inspect the thread's running task. If it is
a green task of the same pool, resume directly (`run_task`) or enqueue
locally; otherwise send through the remote handle and restore the running
task to TLS. -/
def GreenTask.reawaken_go (g : GreenTask) (can_resched : Bool)
    (running_task : TaskS) : Except String (List Event) :=
  match g.sched with
  | some _ => .error "reawaken: sched slot is not empty"
  | none =>
    match running_task.maybe_take_runtime with
    | (some running_green_task, running') =>
        match running_green_task.sched with
        | none => .error "reawaken: take_unwrap on empty sched"
        | some sched =>
          let running_green_task := running_green_task.with_sched none
          if sched.pool_id == g.pool_id then do
            let running_green_task ← running_green_task.put_task running'
            if can_resched then
              .ok [.runTask running_green_task g]
            else do
              let ev ← running_green_task.put_with_sched sched
              .ok [.enqueue g, ev]
          else do
            let ev ← g.reawaken_remotely
            .ok [ev, .localPut (running'.put_runtime (.greenRT running_green_task))]
    | (none, running') => do
        let ev ← g.reawaken_remotely
        .ok [ev, .localPut running']

/-- `reawaken(to_wake, can_resched)`; the thread's TLS task (`Local::take`)
is passed explicitly as `running_task`. -/
def GreenTask.reawaken (g : GreenTask) (to_wake : TaskS) (can_resched : Bool)
    (running_task : TaskS) : Except String (List Event) := do
  let g ← g.put_task to_wake
  g.reawaken_go can_resched running_task

/-- Body of `spawn_sibling` after the current task has been stored: take the
scheduler, configure the sibling from its stack pool, switch to it. -/
def GreenTask.spawn_sibling_go (g : GreenTask) (opts : TaskOpts) :
    Except String Event :=
  match g.sched with
  | none => .error "spawn_sibling: take_unwrap on empty sched"
  | some _ => do
      let sibling ← GreenTask.configure opts
      .ok (.runTask (g.with_sched none) sibling)

/-- `spawn_sibling(cur_task, opts, f)`. -/
def GreenTask.spawn_sibling (g : GreenTask) (cur_task : TaskS)
    (opts : TaskOpts) : Except String Event := do
  let g ← g.put_task cur_task
  g.spawn_sibling_go opts

/-- The proc built by `build_start_wrapper(start, ops)`, as run on first
resume. `decode` is the `from_uint` side of the untyped ownership transfer
(`decode ops` must return the wrapper whose identity was captured as `ops`);
`run_closure` is the generic task's `run` (user closure under the failure
boundary), which returns the generic task when the closure finishes. The
steps, in order: re-acquire ownership, run the scheduler cleanup job, install
self as the generic task's runtime and run the user closure, then `convert`
back and `terminate`. -/
def start_wrapper (decode : Nat → GreenTask) (ops : Nat)
    (run_closure : TaskS → TaskS) : Except String (List Event) := do
  let task := decode ops
  match task.sched with
  | none => .error "run_cleanup_job: get_mut_ref on empty sched"
  | some _ => do
      let t ← task.swap
      let g ← GreenTask.convert (run_closure t)
      let ev ← g.terminate
      .ok [.reacquired, .cleanup, .installAndRun t, ev]

-- Projection lemmas ------------------------------------------------------

@[simp] theorem with_task_handle (g : GreenTask) (t : Option TaskS) :
    (g.with_task t).handle = g.handle := by
  obtain ⟨c, h, s, gt, tt, p⟩ := g; rfl

@[simp] theorem with_task_pool_id (g : GreenTask) (t : Option TaskS) :
    (g.with_task t).pool_id = g.pool_id := by
  obtain ⟨c, h, s, gt, tt, p⟩ := g; rfl

@[simp] theorem with_task_sched (g : GreenTask) (t : Option TaskS) :
    (g.with_task t).sched = g.sched := by
  obtain ⟨c, h, s, gt, tt, p⟩ := g; rfl

@[simp] theorem with_task_task (g : GreenTask) (t : Option TaskS) :
    (g.with_task t).task = t := by
  obtain ⟨c, h, s, gt, tt, p⟩ := g; rfl

@[simp] theorem with_sched_handle (g : GreenTask) (s : Option Scheduler) :
    (g.with_sched s).handle = g.handle := by
  obtain ⟨c, h, s0, gt, tt, p⟩ := g; rfl

@[simp] theorem with_sched_pool_id (g : GreenTask) (s : Option Scheduler) :
    (g.with_sched s).pool_id = g.pool_id := by
  obtain ⟨c, h, s0, gt, tt, p⟩ := g; rfl

@[simp] theorem with_sched_task (g : GreenTask) (s : Option Scheduler) :
    (g.with_sched s).task = g.task := by
  obtain ⟨c, h, s0, gt, tt, p⟩ := g; rfl

@[simp] theorem with_sched_sched (g : GreenTask) (s : Option Scheduler) :
    (g.with_sched s).sched = s := by
  obtain ⟨c, h, s0, gt, tt, p⟩ := g; rfl

@[simp] theorem with_handle_handle (g : GreenTask) (h : Option SchedHandle) :
    (g.with_handle h).handle = h := by
  obtain ⟨c, h0, s, gt, tt, p⟩ := g; rfl

@[simp] theorem with_handle_pool_id (g : GreenTask) (h : Option SchedHandle) :
    (g.with_handle h).pool_id = g.pool_id := by
  obtain ⟨c, h0, s, gt, tt, p⟩ := g; rfl

@[simp] theorem with_pool_id_handle (g : GreenTask) (p : Nat) :
    (g.with_pool_id p).handle = g.handle := by
  obtain ⟨c, h, s, gt, tt, p0⟩ := g; rfl

@[simp] theorem with_pool_id_pool_id (g : GreenTask) (p : Nat) :
    (g.with_pool_id p).pool_id = p := by
  obtain ⟨c, h, s, gt, tt, p0⟩ := g; rfl

/-- Fields of the wrapper after the lazy handle initialization. -/
theorem lazyHandleInit_fields (g : GreenTask) (s : Scheduler) :
    (lazyHandleInit g s).handle =
      (if g.handle.isNone then some s.make_handle else g.handle) ∧
    (lazyHandleInit g s).pool_id =
      (if g.handle.isNone then s.pool_id else g.pool_id) := by
  obtain ⟨c, h, s0, gt, tt, p⟩ := g
  cases h <;>
    simp [lazyHandleInit, GreenTask.handle, GreenTask.pool_id,
      GreenTask.with_handle, GreenTask.with_pool_id]

-- Claim theorems ---------------------------------------------------------

/-- State of a freshly constructed wrapper: pool id 0, no owned scheduler,
no remote-wakeup handle, a generic task present. -/
def initial_state_chk (g : GreenTask) : Bool :=
  (g.pool_id == 0) && g.sched.isNone && g.handle.isNone && g.task.isSome

/-- C9: every constructor path (`new`, `new_homed`, `new_typed`,
`configure`) produces a wrapper with pool id 0, no owned scheduler, no
remote-wakeup handle, and a freshly created generic task present. -/
theorem constructors_initial_state (c : Option Coroutine) (tt : TaskType)
    (ss : Option Nat) (home : Home) (opts : TaskOpts) :
    initial_state_chk (GreenTask.new_typed c tt) = true ∧
    initial_state_chk (GreenTask.new_homed ss home) = true ∧
    initial_state_chk (GreenTask.new ss) = true ∧
    (GreenTask.configure opts).map initial_state_chk = .ok true := by
  refine ⟨rfl, rfl, rfl, rfl⟩

/-- C4: `convert` aborts when the generic task's installed runtime is not a
Green Task; when it is one (and the wrapper's task slot is empty, as for any
installed runtime), it extracts the wrapper, re-attaches the generic task as
its owned task, and returns it. -/
theorem convert_spec (t : TaskS) (g : GreenTask) :
    ((t.runtime = none ∨ t.runtime = some .otherRT) →
      GreenTask.convert t = .error "not a green task any more?") ∧
    (t.runtime = some (.greenRT g) → g.task = none →
      GreenTask.convert t =
        .ok (g.with_task (some (TaskS.mk none t.name t.on_exit)))) := by
  obtain ⟨r, n, e⟩ := t
  obtain ⟨gc, gh, gs, gt, gtt, gp⟩ := g
  constructor
  · rintro (h | h) <;>
      simp only [TaskS.runtime] at h <;> subst h <;> rfl
  · intro h hg
    simp only [TaskS.runtime] at h
    simp only [GreenTask.task] at hg
    subst h; subst hg
    rfl

/-- Witness for C4 at concrete generic tasks: one with a non-green runtime,
one whose runtime is a green wrapper. -/
theorem convert_spec_witness :
    GreenTask.convert (TaskS.mk (some .otherRT) none false) =
      .error "not a green task any more?" ∧
    GreenTask.convert (TaskS.mk
        (some (.greenRT (GreenTask.mk none none none none
          (.TypeGreen (some .AnySched)) 0))) (some "w") true) =
      .ok ((GreenTask.mk none none none none (.TypeGreen (some .AnySched))
        0).with_task (some (TaskS.mk none (some "w") true))) :=
  ⟨(convert_spec (TaskS.mk (some .otherRT) none false)
      (GreenTask.mk none none none none (.TypeGreen (some .AnySched)) 0)).1
      (Or.inr rfl),
   (convert_spec (TaskS.mk (some (.greenRT (GreenTask.mk none none none none
        (.TypeGreen (some .AnySched)) 0))) (some "w") true)
      (GreenTask.mk none none none none (.TypeGreen (some .AnySched)) 0)).2
      rfl rfl⟩

/-- C8: `is_home_no_tls` answers true only for a task bound to a handle with
the given scheduler's identity, answers false for `AnySched` against every
scheduler, and aborts on a missing home or on a bookkeeping task. -/
theorem is_home_spec (g : GreenTask) (s : Scheduler) (h : SchedHandle) :
    (g.task_type = .TypeGreen (some .AnySched) →
        g.is_home_no_tls s = .ok false) ∧
    (g.task_type = .TypeGreen (some (.HomeSched h)) →
        g.is_home_no_tls s = .ok (h.sched_id == s.sched_id)) ∧
    (g.task_type = .TypeGreen none →
        g.is_home_no_tls s = .error "task without home") ∧
    (g.task_type = .TypeSched →
        g.is_home_no_tls s =
          .error "type error: expected: TypeGreen, found: TaskSched") := by
  obtain ⟨c, hh, ss, t, tt, p⟩ := g
  refine ⟨?_, ?_, ?_, ?_⟩ <;>
    · intro h1
      simp only [GreenTask.task_type] at h1
      subst h1
      rfl

/-- Witness for C8 on all four task-type shapes against a concrete
scheduler. -/
theorem is_home_spec_witness :
    (GreenTask.mk none none none none (.TypeGreen (some .AnySched))
      0).is_home_no_tls ⟨4, 1⟩ = .ok false ∧
    (GreenTask.mk none none none none
      (.TypeGreen (some (.HomeSched ⟨4⟩))) 0).is_home_no_tls ⟨4, 1⟩ =
        .ok ((4 : Nat) == 4) ∧
    (GreenTask.mk none none none none (.TypeGreen none)
      0).is_home_no_tls ⟨4, 1⟩ = .error "task without home" ∧
    (GreenTask.mk none none none none .TypeSched 0).is_home_no_tls ⟨4, 1⟩ =
      .error "type error: expected: TypeGreen, found: TaskSched" :=
  ⟨(is_home_spec (GreenTask.mk none none none none
      (.TypeGreen (some .AnySched)) 0) ⟨4, 1⟩ ⟨4⟩).1 rfl,
   (is_home_spec (GreenTask.mk none none none none
      (.TypeGreen (some (.HomeSched ⟨4⟩))) 0) ⟨4, 1⟩ ⟨4⟩).2.1 rfl,
   (is_home_spec (GreenTask.mk none none none none
      (.TypeGreen none) 0) ⟨4, 1⟩ ⟨4⟩).2.2.1 rfl,
   (is_home_spec (GreenTask.mk none none none none
      .TypeSched 0) ⟨4, 1⟩ ⟨4⟩).2.2.2 rfl⟩

/-- C10: `put_task` aborts exactly when the generic-task slot is already
occupied; when the wrapper holds no generic task at entry, each of the five
runtime operations that store the current task back (`yield_now`,
`maybe_yield`, `deschedule`, `reawaken`, `spawn_sibling`) proceeds past that
store into the remainder of its body, so the abort branch of that store is
not taken. -/
theorem put_task_store_spec (g : GreenTask) (t cur : TaskS) (times : Nat)
    (f : Nat → CbResult) (can_resched : Bool) (running : TaskS)
    (opts : TaskOpts) :
    (g.task.isSome = true → g.put_task t = .error put_task_abort) ∧
    (g.task = none →
      g.put_task t = .ok (g.with_task (some t)) ∧
      g.yield_now cur = (g.with_task (some cur)).yield_now_go ∧
      g.maybe_yield cur = (g.with_task (some cur)).maybe_yield_go ∧
      g.deschedule times cur f = (g.with_task (some cur)).deschedule_go times f ∧
      g.reawaken cur can_resched running =
        (g.with_task (some cur)).reawaken_go can_resched running ∧
      g.spawn_sibling cur opts = (g.with_task (some cur)).spawn_sibling_go opts) := by
  obtain ⟨c, h, s, gt, tt, p⟩ := g
  constructor
  · intro hs
    match gt, hs with
    | some _, _ => rfl
  · intro hn
    simp only [GreenTask.task] at hn
    subst hn
    exact ⟨rfl, rfl, rfl, rfl, rfl, rfl⟩

/-- Witness for C10: a wrapper with an occupied slot aborts the store; one
with an empty slot runs every operation past the store. -/
theorem put_task_store_spec_witness :
    ((GreenTask.mk none none none (some TaskS.new)
        (.TypeGreen (some .AnySched)) 0).put_task TaskS.new =
      .error put_task_abort) ∧
    ((GreenTask.mk none none none none (.TypeGreen (some .AnySched))
        0).put_task TaskS.new =
      .ok ((GreenTask.mk none none none none (.TypeGreen (some .AnySched))
        0).with_task (some TaskS.new)) ∧
      (GreenTask.mk none none none none (.TypeGreen (some .AnySched))
        0).yield_now TaskS.new =
        ((GreenTask.mk none none none none (.TypeGreen (some .AnySched))
          0).with_task (some TaskS.new)).yield_now_go ∧
      (GreenTask.mk none none none none (.TypeGreen (some .AnySched))
        0).maybe_yield TaskS.new =
        ((GreenTask.mk none none none none (.TypeGreen (some .AnySched))
          0).with_task (some TaskS.new)).maybe_yield_go ∧
      (GreenTask.mk none none none none (.TypeGreen (some .AnySched))
        0).deschedule 1 TaskS.new (fun _ => .accepted) =
        ((GreenTask.mk none none none none (.TypeGreen (some .AnySched))
          0).with_task (some TaskS.new)).deschedule_go 1 (fun _ => .accepted) ∧
      (GreenTask.mk none none none none (.TypeGreen (some .AnySched))
        0).reawaken TaskS.new true TaskS.new =
        ((GreenTask.mk none none none none (.TypeGreen (some .AnySched))
          0).with_task (some TaskS.new)).reawaken_go true TaskS.new ∧
      (GreenTask.mk none none none none (.TypeGreen (some .AnySched))
        0).spawn_sibling TaskS.new ⟨false, none, none⟩ =
        ((GreenTask.mk none none none none (.TypeGreen (some .AnySched))
          0).with_task (some TaskS.new)).spawn_sibling_go ⟨false, none, none⟩) :=
  ⟨(put_task_store_spec (GreenTask.mk none none none (some TaskS.new)
      (.TypeGreen (some .AnySched)) 0) TaskS.new TaskS.new 1
      (fun _ => .accepted) true TaskS.new ⟨false, none, none⟩).1 rfl,
   (put_task_store_spec (GreenTask.mk none none none none
      (.TypeGreen (some .AnySched)) 0) TaskS.new TaskS.new 1
      (fun _ => .accepted) true TaskS.new ⟨false, none, none⟩).2 rfl⟩

/-- State of the descheduled wrapper after `deschedule` has stored the
current task, taken the scheduler and run the lazy handle initialization. -/
def descheduleState (g : GreenTask) (cur : TaskS) (s : Scheduler) : GreenTask :=
  lazyHandleInit ((g.with_task (some cur)).with_sched none) s

/-- Success results of `deschedule_go` always carry the post-initialization
wrapper state as their first component. -/
theorem deschedule_go_state (g g' : GreenTask) (s : Scheduler)
    (f : Nat → CbResult) (times : Nat) (off : List Nat) (evs : List Event)
    (h1 : g.sched = some s)
    (h : g.deschedule_go times f = .ok (g', off, evs)) :
    g' = lazyHandleInit (g.with_sched none) s := by
  obtain ⟨c, hh, ss, gt, tt, p⟩ := g
  simp only [GreenTask.sched] at h1
  subst h1
  unfold GreenTask.deschedule_go at h
  simp only [GreenTask.sched] at h
  split at h
  · split at h
    · simp only [Except.ok.injEq, Prod.mk.injEq] at h
      exact h.1.symm
    · simp only [Except.ok.injEq, Prod.mk.injEq] at h
      exact h.1.symm
    · rename_i t heq
      cases hc : GreenTask.convert t with
      | error e => rw [hc] at h; simp [Bind.bind, Except.bind] at h
      | ok gw =>
          rw [hc] at h
          simp only [Bind.bind, Except.bind, Except.ok.injEq, Prod.mk.injEq] at h
          exact h.1.symm
  · cases hc : selectLoop f 0 times with
    | error e => rw [hc] at h; simp [Bind.bind, Except.bind] at h
    | ok pr =>
        obtain ⟨o2, e2⟩ := pr
        rw [hc] at h
        simp only [Bind.bind, Except.bind, Except.ok.injEq, Prod.mk.injEq] at h
        exact h.1.symm

/-- Success of `deschedule` forces the entry task slot to have been empty,
and the result state is `descheduleState`. -/
theorem deschedule_state (g g' : GreenTask) (s : Scheduler) (cur : TaskS)
    (f : Nat → CbResult) (times : Nat) (off : List Nat) (evs : List Event)
    (h1 : g.sched = some s)
    (h : g.deschedule times cur f = .ok (g', off, evs)) :
    g' = descheduleState g cur s := by
  obtain ⟨c, hh, ss, gt, tt, p⟩ := g
  simp only [GreenTask.sched] at h1
  subst h1
  unfold GreenTask.deschedule GreenTask.put_task at h
  simp only [GreenTask.task] at h
  cases gt with
  | some t0 => simp [Bind.bind, Except.bind] at h
  | none =>
      simp only [Bind.bind, Except.bind] at h
      exact deschedule_go_state _ g' s f times off evs rfl h

/-- C6: when `deschedule` is called with `count == 1` and the callback gives
the blocked handle back with a still-valid wake, the woken task is converted
and immediately re-enqueued on the scheduler's run queue (a single `enqueue`
call, no other scheduler event). -/
theorem deschedule_one_requeues (g gw : GreenTask) (s : Scheduler)
    (cur t : TaskS) (f : Nat → CbResult)
    (h1 : g.task = none) (h2 : g.sched = some s)
    (h3 : f 0 = .rejected (some t)) (h4 : GreenTask.convert t = .ok gw) :
    g.deschedule 1 cur f =
      .ok (descheduleState g cur s, [0], [.enqueue gw]) := by
  obtain ⟨c, hh, ss, gt, tt, p⟩ := g
  simp only [GreenTask.task] at h1
  simp only [GreenTask.sched] at h2
  subst h1; subst h2
  simp [GreenTask.deschedule, GreenTask.put_task, GreenTask.deschedule_go,
    descheduleState, GreenTask.with_task, GreenTask.with_sched, GreenTask.task,
    GreenTask.sched, h3, h4, Bind.bind, Except.bind]

/-- Witness for C6: a concrete wrapper descheduled once, whose callback
rejects the wait with a valid wake; the converted task is re-enqueued. -/
theorem deschedule_one_requeues_witness :
    (GreenTask.mk none none (some ⟨3, 1⟩) none (.TypeGreen (some .AnySched))
        0).deschedule 1 TaskS.new
        (fun _ => .rejected (some (TaskS.mk
          (some (.greenRT (GreenTask.mk none none none none
            (.TypeGreen (some .AnySched)) 0))) none false))) =
      .ok (descheduleState (GreenTask.mk none none (some ⟨3, 1⟩) none
            (.TypeGreen (some .AnySched)) 0) TaskS.new ⟨3, 1⟩, [0],
        [.enqueue (GreenTask.mk none none none (some (TaskS.mk none none false))
          (.TypeGreen (some .AnySched)) 0)]) :=
  deschedule_one_requeues
    (GreenTask.mk none none (some ⟨3, 1⟩) none (.TypeGreen (some .AnySched)) 0)
    (GreenTask.mk none none none (some (TaskS.mk none none false))
      (.TypeGreen (some .AnySched)) 0)
    ⟨3, 1⟩ TaskS.new
    (TaskS.mk (some (.greenRT (GreenTask.mk none none none none
      (.TypeGreen (some .AnySched)) 0))) none false)
    (fun _ => .rejected (some (TaskS.mk
      (some (.greenRT (GreenTask.mk none none none none
        (.TypeGreen (some .AnySched)) 0))) none false)))
    rfl rfl rfl rfl

/-- Resumption between two deschedule calls: the scheduler extracts the
generic task again and hands the wrapper a scheduler back. -/
def resumeWith (g : GreenTask) (s : Scheduler) : GreenTask :=
  (g.with_task none).with_sched (some s)

/-- Iterated suspension: for each listed call, resume the wrapper on the
call's scheduler and deschedule again. -/
def deschedCalls (g : GreenTask) :
    List (Scheduler × TaskS × (Nat → CbResult) × Nat) →
      Except String GreenTask
  | [] => .ok g
  | (s, cur, f, times) :: rest => do
      let (g', _, _) ← (resumeWith g s).deschedule times cur f
      deschedCalls g' rest

/-- A wrapper that already has a remote-wakeup handle keeps it (and its pool
id) across any sequence of further deschedule calls. -/
theorem deschedCalls_stable
    (calls : List (Scheduler × TaskS × (Nat → CbResult) × Nat))
    (g1 g2 : GreenTask) (h : SchedHandle)
    (hh : g1.handle = some h)
    (hc : deschedCalls g1 calls = .ok g2) :
    g2.handle = some h ∧ g2.pool_id = g1.pool_id := by
  induction calls generalizing g1 with
  | nil =>
      simp only [deschedCalls, Except.ok.injEq] at hc
      subst hc
      exact ⟨hh, rfl⟩
  | cons call rest ih =>
      obtain ⟨s, cur, f, times⟩ := call
      cases hd : (resumeWith g1 s).deschedule times cur f with
      | error e =>
          simp [deschedCalls, Bind.bind, Except.bind, hd] at hc
      | ok res =>
          obtain ⟨g', off, evs⟩ := res
          simp only [deschedCalls, Bind.bind, Except.bind, hd] at hc
          have hst := deschedule_state (resumeWith g1 s) g' s cur f times
            off evs (by simp [resumeWith]) hd
          have hfld : g'.handle = some h ∧ g'.pool_id = g1.pool_id := by
            rw [hst]
            unfold descheduleState
            rcases lazyHandleInit_fields
              (((resumeWith g1 s).with_task (some cur)).with_sched none) s
              with ⟨hA, hB⟩
            rw [hA, hB]
            simp [resumeWith, hh]
          have hrest := ih g' hfld.1 hc
          exact ⟨hrest.1, by rw [hrest.2, hfld.2]⟩

/-- C5: the remote-wakeup handle and the pool id are created lazily by the
first `deschedule` call on a wrapper that has none (from the scheduler the
wrapper is then running on), and once set they stay identical across any
number of subsequent deschedule calls, on any schedulers. -/
theorem handle_lazy_stable (g g1 g2 : GreenTask) (s : Scheduler) (cur : TaskS)
    (f : Nat → CbResult) (times : Nat)
    (calls : List (Scheduler × TaskS × (Nat → CbResult) × Nat))
    (off : List Nat) (evs : List Event)
    (h0 : g.handle = none) (h1 : g.sched = some s)
    (h3 : g.deschedule times cur f = .ok (g1, off, evs))
    (h4 : deschedCalls g1 calls = .ok g2) :
    g1.handle = some s.make_handle ∧ g1.pool_id = s.pool_id ∧
    g2.handle = some s.make_handle ∧ g2.pool_id = g1.pool_id := by
  have hst := deschedule_state g g1 s cur f times off evs h1 h3
  have hfld : g1.handle = some s.make_handle ∧ g1.pool_id = s.pool_id := by
    rw [hst]
    unfold descheduleState
    rcases lazyHandleInit_fields ((g.with_task (some cur)).with_sched none) s
      with ⟨hA, hB⟩
    rw [hA, hB]
    simp [h0]
  have hstb := deschedCalls_stable calls g1 g2 s.make_handle hfld.1 h4
  exact ⟨hfld.1, hfld.2, hstb.1, hstb.2⟩

/-- Witness for C5: a fresh wrapper descheduled on scheduler `⟨5, 9⟩`, then
resumed and descheduled once more on scheduler `⟨6, 10⟩`: the handle and the
pool id stay those captured by the first call. -/
theorem handle_lazy_stable_witness :
    (GreenTask.mk none (some ⟨5⟩) none (some TaskS.new)
        (.TypeGreen (some .AnySched)) 9).handle =
      some (Scheduler.make_handle ⟨5, 9⟩) ∧
    (GreenTask.mk none (some ⟨5⟩) none (some TaskS.new)
        (.TypeGreen (some .AnySched)) 9).pool_id =
      (⟨5, 9⟩ : Scheduler).pool_id ∧
    (GreenTask.mk none (some ⟨5⟩) none (some TaskS.new)
        (.TypeGreen (some .AnySched)) 9).handle =
      some (Scheduler.make_handle ⟨5, 9⟩) ∧
    (GreenTask.mk none (some ⟨5⟩) none (some TaskS.new)
        (.TypeGreen (some .AnySched)) 9).pool_id =
      (GreenTask.mk none (some ⟨5⟩) none (some TaskS.new)
        (.TypeGreen (some .AnySched)) 9).pool_id :=
  handle_lazy_stable
    (GreenTask.mk none none (some ⟨5, 9⟩) none (.TypeGreen (some .AnySched)) 0)
    (GreenTask.mk none (some ⟨5⟩) none (some TaskS.new)
      (.TypeGreen (some .AnySched)) 9)
    (GreenTask.mk none (some ⟨5⟩) none (some TaskS.new)
      (.TypeGreen (some .AnySched)) 9)
    ⟨5, 9⟩ TaskS.new (fun _ => .accepted) 1
    [(⟨6, 10⟩, TaskS.new, fun _ => .accepted, 1)]
    [0] [] rfl rfl rfl rfl

/-- When the callback accepts every handle, the selectable loop offers all
`n` handles and enqueues nothing. -/
theorem selectLoop_all_accept (f : Nat → CbResult) (n : Nat) :
    ∀ i, (∀ j, j < n → f (i + j) = .accepted) →
    selectLoop f i n = .ok (List.range' i n, []) := by
  induction n with
  | zero => intro i _; rfl
  | succ n ih =>
      intro i h
      have h0 : f i = .accepted := by simpa using h 0 (Nat.succ_pos n)
      have hrec := ih (i + 1) (fun j hj => by
        have := h (j + 1) (Nat.succ_lt_succ hj)
        rwa [show i + (j + 1) = i + 1 + j by omega] at this)
      simp [selectLoop, h0, hrec, Bind.bind, Except.bind,
        List.range'_succ i n 1]

/-- When the callback accepts the first `k` handles and rejects handle `k`
with a dead wake, the loop offers handles `i, ..., i + k` and stops with no
enqueue. -/
theorem selectLoop_reject_dead (f : Nat → CbResult) (k : Nat) :
    ∀ n i, k < n → (∀ j, j < k → f (i + j) = .accepted) →
    f (i + k) = .rejected none →
    selectLoop f i n = .ok (List.range' i (k + 1), []) := by
  induction k with
  | zero =>
      intro n i hk _ hrej
      obtain ⟨m, rfl⟩ : ∃ m, n = m + 1 := ⟨n - 1, by omega⟩
      have h0 : f i = .rejected none := by simpa using hrej
      simp [selectLoop, h0, List.range'_succ i 0 1]
  | succ k ih =>
      intro n i hk hacc hrej
      obtain ⟨m, rfl⟩ : ∃ m, n = m + 1 := ⟨n - 1, by omega⟩
      have h0 : f i = .accepted := by simpa using hacc 0 (Nat.succ_pos k)
      have hrec := ih m (i + 1) (by omega)
        (fun j hj => by
          have := hacc (j + 1) (Nat.succ_lt_succ hj)
          rwa [show i + (j + 1) = i + 1 + j by omega] at this)
        (by rwa [show i + 1 + k = i + (k + 1) by omega])
      simp [selectLoop, h0, hrec, Bind.bind, Except.bind,
        List.range'_succ i (k + 1) 1]

/-- When the callback accepts the first `k` handles and rejects handle `k`
with a still-valid wake, the loop offers handles `i, ..., i + k`, re-enqueues
the converted woken task, and stops. -/
theorem selectLoop_reject_wake (f : Nat → CbResult) (t : TaskS)
    (gw : GreenTask) (k : Nat) :
    ∀ n i, k < n → (∀ j, j < k → f (i + j) = .accepted) →
    f (i + k) = .rejected (some t) → GreenTask.convert t = .ok gw →
    selectLoop f i n = .ok (List.range' i (k + 1), [.enqueue gw]) := by
  induction k with
  | zero =>
      intro n i hk _ hrej hcv
      obtain ⟨m, rfl⟩ : ∃ m, n = m + 1 := ⟨n - 1, by omega⟩
      have h0 : f i = .rejected (some t) := by simpa using hrej
      simp [selectLoop, h0, hcv, Bind.bind, Except.bind,
        List.range'_succ i 0 1]
  | succ k ih =>
      intro n i hk hacc hrej hcv
      obtain ⟨m, rfl⟩ : ∃ m, n = m + 1 := ⟨n - 1, by omega⟩
      have h0 : f i = .accepted := by simpa using hacc 0 (Nat.succ_pos k)
      have hrec := ih m (i + 1) (by omega)
        (fun j hj => by
          have := hacc (j + 1) (Nat.succ_lt_succ hj)
          rwa [show i + (j + 1) = i + 1 + j by omega] at this)
        (by rwa [show i + 1 + k = i + (k + 1) by omega]) hcv
      simp [selectLoop, h0, hrec, Bind.bind, Except.bind,
        List.range'_succ i (k + 1) 1]

/-- C1 (amended): for `deschedule` with `count = times > 1`, the derived
wait-handles are offered to the callback in order; offering continues past
every handle the callback accepts and stops at the first handle it rejects;
when that rejection carries a still-valid wake, the woken task is converted
and re-enqueued (exactly one enqueue); handles after the first rejection are
never offered. -/
theorem deschedule_select_spec (g gw : GreenTask) (s : Scheduler)
    (cur t : TaskS) (f : Nat → CbResult) (times k : Nat)
    (h1 : g.task = none) (h2 : g.sched = some s) (hn : 2 ≤ times) :
    ((∀ j, j < times → f j = .accepted) →
      g.deschedule times cur f =
        .ok (descheduleState g cur s, List.range times, [])) ∧
    (k < times → (∀ j, j < k → f j = .accepted) → f k = .rejected none →
      g.deschedule times cur f =
        .ok (descheduleState g cur s, List.range (k + 1), [])) ∧
    (k < times → (∀ j, j < k → f j = .accepted) →
      f k = .rejected (some t) → GreenTask.convert t = .ok gw →
      g.deschedule times cur f =
        .ok (descheduleState g cur s, List.range (k + 1),
          [.enqueue gw])) := by
  obtain ⟨c, hh, ss, gt, tt, p⟩ := g
  simp only [GreenTask.task] at h1
  simp only [GreenTask.sched] at h2
  subst h1; subst h2
  have ht : (times == 1) = false := beq_eq_false_iff_ne.mpr (by omega)
  refine ⟨?_, ?_, ?_⟩
  · intro hacc
    have hsl := selectLoop_all_accept f times 0
      (fun j hj => by simpa using hacc j hj)
    simp [GreenTask.deschedule, GreenTask.put_task, GreenTask.deschedule_go,
      GreenTask.task, GreenTask.sched, GreenTask.with_task,
      GreenTask.with_sched, descheduleState, ht, hsl, Bind.bind, Except.bind,
      List.range_eq_range']
  · intro hk hacc hrej
    have hsl := selectLoop_reject_dead f k times 0
      (hk) (fun j hj => by simpa using hacc j hj) (by simpa using hrej)
    simp [GreenTask.deschedule, GreenTask.put_task, GreenTask.deschedule_go,
      GreenTask.task, GreenTask.sched, GreenTask.with_task,
      GreenTask.with_sched, descheduleState, ht, hsl, Bind.bind, Except.bind,
      List.range_eq_range']
  · intro hk hacc hrej hcv
    have hsl := selectLoop_reject_wake f t gw k times 0
      (hk) (fun j hj => by simpa using hacc j hj) (by simpa using hrej) hcv
    simp [GreenTask.deschedule, GreenTask.put_task, GreenTask.deschedule_go,
      GreenTask.task, GreenTask.sched, GreenTask.with_task,
      GreenTask.with_sched, descheduleState, ht, hsl, Bind.bind, Except.bind,
      List.range_eq_range']

/-- Wrapper used by the C1 counterexample: scheduler present, task slot
empty, no handle yet. -/
def gC1 : GreenTask :=
  GreenTask.mk none none (some ⟨7, 3⟩) none (.TypeGreen (some .AnySched)) 0

/-- Callback that accepts every offered handle. -/
def cbAllAccept : Nat → CbResult := fun _ => .accepted

/-- C1 (counterexample to the claim as stated): with `count = 2` and a
callback that accepts handle 0, offering does not stop at that first
accepted handle — both handles are offered, and both offered handles are
accepted, so it is not the case that exactly one of the offered handles is
accepted. -/
theorem deschedule_select_claim_false :
    gC1.deschedule 2 TaskS.new cbAllAccept =
      .ok (descheduleState gC1 TaskS.new ⟨7, 3⟩, [0, 1], []) ∧
    cbAllAccept 0 = .accepted ∧ cbAllAccept 1 = .accepted ∧
    ([0, 1] : List Nat) ≠ [0] :=
  ⟨rfl, rfl, rfl, by decide⟩

/-- Callback for the C1 witness: accepts handle 0, then rejects handle 1
with a still-valid wake of a green-backed task. -/
def cbRejectOne : Nat → CbResult := fun i =>
  match i with
  | 0 => .accepted
  | _ => .rejected (some (TaskS.mk (some (.greenRT (GreenTask.mk none none
      none none (.TypeGreen (some .AnySched)) 0))) none false))

/-- Witness for C1 (amended) at `times = 3`: an all-accepting callback is
offered all three handles, and a callback rejecting handle 1 with a valid
wake is offered handles 0 and 1 only, with exactly one enqueue. -/
theorem deschedule_select_spec_witness :
    gC1.deschedule 3 TaskS.new cbAllAccept =
      .ok (descheduleState gC1 TaskS.new ⟨7, 3⟩, List.range 3, []) ∧
    gC1.deschedule 3 TaskS.new cbRejectOne =
      .ok (descheduleState gC1 TaskS.new ⟨7, 3⟩, List.range 2,
        [.enqueue (GreenTask.mk none none none (some (TaskS.mk none none
          false)) (.TypeGreen (some .AnySched)) 0)]) :=
  ⟨(deschedule_select_spec gC1 (GreenTask.mk none none none (some (TaskS.mk
      none none false)) (.TypeGreen (some .AnySched)) 0) ⟨7, 3⟩ TaskS.new
      TaskS.new cbAllAccept 3 1 rfl rfl (by omega)).1
      (fun j hj => rfl),
   (deschedule_select_spec gC1 (GreenTask.mk none none none (some (TaskS.mk
      none none false)) (.TypeGreen (some .AnySched)) 0) ⟨7, 3⟩ TaskS.new
      (TaskS.mk (some (.greenRT (GreenTask.mk none none none none
        (.TypeGreen (some .AnySched)) 0))) none false) cbRejectOne 3 1
      rfl rfl (by omega)).2.2 (by omega)
      (fun j hj => by
        have hj0 : j = 0 := by omega
        subst hj0; rfl)
      rfl rfl⟩

/-- C2: when the waking thread's active task is a green task of the same
pool as the target, `reawaken` never touches the target's remote handle —
with `can_resched` it switches to the target immediately (`run_task`),
otherwise it enqueues the target on the local run queue; when the running
green task belongs to a different pool, or the running task is not green,
exactly one message is sent through the target's remote-wakeup handle. -/
theorem reawaken_spec (g rg : GreenTask) (tw running : TaskS)
    (s : Scheduler) (h : SchedHandle) (cr : Bool)
    (hg1 : g.task = none) (hg2 : g.sched = none) :
    (running.runtime = some (.greenRT rg) → rg.sched = some s →
      rg.task = none → s.pool_id = g.pool_id →
      (g.reawaken tw true running =
        .ok [.runTask ((rg.with_sched none).with_task
            (some (TaskS.mk none running.name running.on_exit)))
          (g.with_task (some tw))] ∧
       g.reawaken tw false running =
        .ok [.enqueue (g.with_task (some tw)),
          .localPut ((TaskS.mk none running.name running.on_exit).put_runtime
            (.greenRT ((rg.with_sched (some s)).with_task none)))])) ∧
    (running.runtime = some (.greenRT rg) → rg.sched = some s →
      s.pool_id ≠ g.pool_id → g.handle = some h →
      g.reawaken tw cr running =
        .ok [.remoteSend h (g.with_task (some tw)),
          .localPut ((TaskS.mk none running.name running.on_exit).put_runtime
            (.greenRT (rg.with_sched none)))]) ∧
    ((running.runtime = none ∨ running.runtime = some .otherRT) →
      g.handle = some h →
      g.reawaken tw cr running =
        .ok [.remoteSend h (g.with_task (some tw)), .localPut running]) := by
  obtain ⟨c, hh, ss, gt, tt, p⟩ := g
  obtain ⟨rr, rn, re⟩ := running
  simp only [GreenTask.task] at hg1
  simp only [GreenTask.sched] at hg2
  subst hg1; subst hg2
  refine ⟨?_, ?_, ?_⟩
  · intro hruntime hrs hrt hp
    simp only [TaskS.runtime] at hruntime
    subst hruntime
    obtain ⟨rc, rh, rs, rt, rtt, rp⟩ := rg
    simp only [GreenTask.sched] at hrs
    simp only [GreenTask.task] at hrt
    subst hrs; subst hrt
    simp only [GreenTask.pool_id] at hp
    constructor <;>
      simp [GreenTask.reawaken, GreenTask.put_task, GreenTask.reawaken_go,
        GreenTask.task, GreenTask.sched, GreenTask.handle, GreenTask.pool_id,
        GreenTask.with_task, GreenTask.with_sched, TaskS.maybe_take_runtime,
        GreenTask.put_with_sched, GreenTask.put, GreenTask.swap,
        TaskS.put_runtime, TaskS.name, TaskS.on_exit, hp,
        Bind.bind, Except.bind]
  · intro hruntime hrs hp hhd
    simp only [TaskS.runtime] at hruntime
    subst hruntime
    obtain ⟨rc, rh, rs, rt, rtt, rp⟩ := rg
    simp only [GreenTask.sched] at hrs
    subst hrs
    simp only [GreenTask.handle] at hhd
    subst hhd
    simp only [GreenTask.pool_id] at hp
    have hb : (s.pool_id == p) = false := beq_eq_false_iff_ne.mpr hp
    simp [GreenTask.reawaken, GreenTask.put_task, GreenTask.reawaken_go,
      GreenTask.task, GreenTask.sched, GreenTask.handle, GreenTask.pool_id,
      GreenTask.with_task, GreenTask.with_sched, TaskS.maybe_take_runtime,
      GreenTask.reawaken_remotely, TaskS.put_runtime, TaskS.name,
      TaskS.on_exit, hb, Bind.bind, Except.bind]
  · intro hruntime hhd
    simp only [GreenTask.handle] at hhd
    subst hhd
    rcases hruntime with hr | hr <;>
      · simp only [TaskS.runtime] at hr
        subst hr
        simp [GreenTask.reawaken, GreenTask.put_task, GreenTask.reawaken_go,
          GreenTask.task, GreenTask.sched, GreenTask.handle,
          GreenTask.with_task, TaskS.maybe_take_runtime,
          GreenTask.reawaken_remotely, Bind.bind, Except.bind]

/-- Target wrapper used by the C2 witness: handle `⟨9⟩`, pool 4, suspended
(no scheduler, no task). -/
def gC2 : GreenTask :=
  GreenTask.mk none (some ⟨9⟩) none none (.TypeGreen (some .AnySched)) 4

/-- Running green task of the same pool (pool 4) for the C2 witness. -/
def rgC2 : GreenTask :=
  GreenTask.mk none none (some ⟨2, 4⟩) none (.TypeGreen (some .AnySched)) 0

/-- Running green task of a different pool (pool 8) for the C2 witness. -/
def rgC2x : GreenTask :=
  GreenTask.mk none none (some ⟨2, 8⟩) none (.TypeGreen (some .AnySched)) 0

/-- Witness for C2 on concrete wrappers: same-pool wake with and without
rescheduling (no remote send), cross-pool wake and non-green running task
(exactly one remote send each). -/
theorem reawaken_spec_witness :
    gC2.reawaken TaskS.new true (TaskS.mk (some (.greenRT rgC2)) none false) =
      .ok [.runTask ((rgC2.with_sched none).with_task
          (some (TaskS.mk none none false)))
        (gC2.with_task (some TaskS.new))] ∧
    gC2.reawaken TaskS.new false (TaskS.mk (some (.greenRT rgC2)) none false) =
      .ok [.enqueue (gC2.with_task (some TaskS.new)),
        .localPut ((TaskS.mk none none false).put_runtime
          (.greenRT ((rgC2.with_sched (some ⟨2, 4⟩)).with_task none)))] ∧
    gC2.reawaken TaskS.new true (TaskS.mk (some (.greenRT rgC2x)) none false) =
      .ok [.remoteSend ⟨9⟩ (gC2.with_task (some TaskS.new)),
        .localPut ((TaskS.mk none none false).put_runtime
          (.greenRT (rgC2x.with_sched none)))] ∧
    gC2.reawaken TaskS.new true (TaskS.mk (some .otherRT) none false) =
      .ok [.remoteSend ⟨9⟩ (gC2.with_task (some TaskS.new)),
        .localPut (TaskS.mk (some .otherRT) none false)] :=
  ⟨((reawaken_spec gC2 rgC2 TaskS.new
      (TaskS.mk (some (.greenRT rgC2)) none false) ⟨2, 4⟩ ⟨9⟩ true
      rfl rfl).1 rfl rfl rfl rfl).1,
   ((reawaken_spec gC2 rgC2 TaskS.new
      (TaskS.mk (some (.greenRT rgC2)) none false) ⟨2, 4⟩ ⟨9⟩ false
      rfl rfl).1 rfl rfl rfl rfl).2,
   (reawaken_spec gC2 rgC2x TaskS.new
      (TaskS.mk (some (.greenRT rgC2x)) none false) ⟨2, 8⟩ ⟨9⟩ true
      rfl rfl).2.1 rfl rfl (by decide) rfl,
   (reawaken_spec gC2 rgC2x TaskS.new
      (TaskS.mk (some .otherRT) none false) ⟨2, 8⟩ ⟨9⟩ true
      rfl rfl).2.2 (Or.inr rfl) rfl⟩

/-- C7: the coroutine entry wrapper, on first resume, performs in order:
reconstruct ownership of the wrapper from the integer identity captured at
construction, run the scheduler's post-switch cleanup job (which requires
the scheduler to be present), install the wrapper as the generic task's
active runtime and run the user closure under the generic task's failure
boundary, then re-extract the generic task via `convert` and `terminate`. -/
theorem start_wrapper_spec (decode : Nat → GreenTask) (ops : Nat)
    (run_closure : TaskS → TaskS) (g : GreenTask) (s : Scheduler) (t : TaskS)
    (hdec : decode ops = g) (hs : g.sched = some s) (ht : g.task = some t)
    (hrun : run_closure (t.put_runtime (.greenRT (g.with_task none))) =
      t.put_runtime (.greenRT (g.with_task none))) :
    start_wrapper decode ops run_closure =
      .ok [.reacquired, .cleanup,
        .installAndRun (t.put_runtime (.greenRT (g.with_task none))),
        .terminated (((g.with_task none).with_task
          (some (TaskS.mk none t.name t.on_exit))).with_sched none)] := by
  obtain ⟨c, hh, ss, gt, tt, p⟩ := g
  obtain ⟨tr, tn, te⟩ := t
  simp only [GreenTask.sched] at hs
  simp only [GreenTask.task] at ht
  subst hs; subst ht
  simp only [TaskS.put_runtime, GreenTask.with_task] at hrun
  simp [start_wrapper, hdec, GreenTask.swap, GreenTask.task, GreenTask.sched,
    GreenTask.with_task, GreenTask.with_sched, TaskS.put_runtime,
    GreenTask.convert, TaskS.maybe_take_runtime, GreenTask.put_task,
    GreenTask.terminate, TaskS.name, TaskS.on_exit, hrun,
    Bind.bind, Except.bind]

/-- Wrapper used by the C7 witness: scheduler present, generic task
present. -/
def gC7 : GreenTask :=
  GreenTask.mk none none (some ⟨1, 1⟩) (some TaskS.new)
    (.TypeGreen (some .AnySched)) 0

/-- Witness for C7: a concrete wrapper with an identity-decoding ownership
token and a user closure that returns its task unchanged. -/
theorem start_wrapper_spec_witness :
    start_wrapper (fun _ => gC7) 0 (fun t => t) =
      .ok [.reacquired, .cleanup,
        .installAndRun (TaskS.new.put_runtime (.greenRT (gC7.with_task none))),
        .terminated (((gC7.with_task none).with_task
          (some (TaskS.mk none TaskS.new.name TaskS.new.on_exit))).with_sched
            none)] :=
  start_wrapper_spec (fun _ => gC7) 0 (fun t => t) gC7 ⟨1, 1⟩ TaskS.new
    rfl rfl rfl rfl

/-- Wrapper used by the C3 counterexample: no scheduler, generic task
present. -/
def gC3 : GreenTask :=
  GreenTask.mk none none none (some TaskS.new) (.TypeGreen (some .AnySched)) 0

/-- C3 (counterexample to the claim as stated): `put_with_sched` installs
the wrapper as the generic task's active runtime while the wrapper is
holding the scheduler — so a wrapper can be installed as the active runtime
and have its scheduler field present at once, refuting the exactly-one-of
invariant at a concrete reachable state. -/
theorem sched_xor_installed_false :
    gC3.put_with_sched ⟨2, 5⟩ =
      .ok (.localPut (TaskS.mk (some (.greenRT (GreenTask.mk none none
        (some ⟨2, 5⟩) none (.TypeGreen (some .AnySched)) 0))) none false)) ∧
    (GreenTask.mk none none (some ⟨2, 5⟩) none (.TypeGreen (some .AnySched))
      0).sched.isSome = true :=
  ⟨rfl, rfl⟩

/-- C3 (amended): the precondition facts hold — `put_with_sched` requires
the scheduler slot empty, `put` requires it filled, and `reawaken` requires
the woken wrapper to hold no scheduler; and when `put_with_sched` succeeds
the wrapper is installed as the generic task's active runtime holding its
scheduler (present-and-installed, rather than exactly one of the two). -/
theorem sched_slot_preconditions (g : GreenTask) (s s0 : Scheduler)
    (tw running t : TaskS) (cr : Bool) :
    (g.sched = some s0 → g.put_with_sched s =
      .error "put_with_sched: sched slot is not empty") ∧
    (g.sched = none → g.put = .error "put: sched slot is empty") ∧
    (g.sched = some s0 → g.task = none →
      g.reawaken tw cr running = .error "reawaken: sched slot is not empty") ∧
    (g.sched = none → g.task = some t →
      g.put_with_sched s = .ok (.localPut (t.put_runtime
        (.greenRT ((g.with_sched (some s)).with_task none))))) := by
  obtain ⟨c, hh, ss, gt, tt, p⟩ := g
  refine ⟨?_, ?_, ?_, ?_⟩
  · intro h1
    simp only [GreenTask.sched] at h1
    subst h1
    rfl
  · intro h1
    simp only [GreenTask.sched] at h1
    subst h1
    rfl
  · intro h1 h2
    simp only [GreenTask.sched] at h1
    simp only [GreenTask.task] at h2
    subst h1; subst h2
    rfl
  · intro h1 h2
    simp only [GreenTask.sched] at h1
    simp only [GreenTask.task] at h2
    subst h1; subst h2
    rfl

/-- Wrapper with a scheduler and empty task slot for the C3 witness. -/
def gC3a : GreenTask :=
  GreenTask.mk none none (some ⟨1, 1⟩) none (.TypeGreen (some .AnySched)) 0

/-- Wrapper with no scheduler and an owned generic task for the C3
witness. -/
def gC3b : GreenTask :=
  GreenTask.mk none none none (some TaskS.new) (.TypeGreen (some .AnySched)) 0

/-- Witness for C3 (amended) at concrete wrappers. -/
theorem sched_slot_preconditions_witness :
    (gC3a.put_with_sched ⟨8, 8⟩ =
      .error "put_with_sched: sched slot is not empty") ∧
    (gC3b.put = .error "put: sched slot is empty") ∧
    (gC3a.reawaken TaskS.new true TaskS.new =
      .error "reawaken: sched slot is not empty") ∧
    (gC3b.put_with_sched ⟨8, 8⟩ = .ok (.localPut (TaskS.new.put_runtime
      (.greenRT ((gC3b.with_sched (some ⟨8, 8⟩)).with_task none))))) :=
  ⟨(sched_slot_preconditions gC3a ⟨8, 8⟩ ⟨1, 1⟩ TaskS.new TaskS.new
      TaskS.new true).1 rfl,
   (sched_slot_preconditions gC3b ⟨8, 8⟩ ⟨1, 1⟩ TaskS.new TaskS.new
      TaskS.new true).2.1 rfl,
   (sched_slot_preconditions gC3a ⟨8, 8⟩ ⟨1, 1⟩ TaskS.new TaskS.new
      TaskS.new true).2.2.1 rfl rfl,
   (sched_slot_preconditions gC3b ⟨8, 8⟩ ⟨1, 1⟩ TaskS.new TaskS.new
      TaskS.new true).2.2.2 rfl rfl⟩

end GreenRT
